import Mathlib

/-!
Shallow embedding of the news application's core (role-based visibility
filter, approval workflow, notification fan-out) from `src/news/`:
`models.py`, `api_views.py`, `views.py`, `signals.py`.

Conventions of the embedding:
* database rows are Lean lists; a Django queryset `filter` is `List.filter`;
  `order_by('-published_at')` is `List.insertionSort` with the descending
  key order (`NULL` timestamps sort as 0);
* model instances are Lean structures; primary keys are `Option Nat`
  (`none` = not yet saved, as in Django before the first `save()`);
* Python `set` of model instances deduplicates by primary key, embedded as
  list union keyed by `id`;
* Python exceptions are `Except String`, and a `try/except` block is an
  explicit `match` whose `error` branch produces the logged outcome, so a
  total return type records that no exception escapes the boundary;
* Python string slicing `s[:k]` (including negative `k`) is `pySliceTo`.
-/

/-- A publisher row (`news.models.Publisher`): only the fields the core
logic reads are embedded. -/
structure Publisher where
  id : Nat
  name : String
deriving DecidableEq

/-- A user row (`news.models.CustomUser`): role tag plus the subscription
relations (many-to-many sets, embedded as lists of target ids).
`full_name` models `get_full_name()`; `email` is `""` when the user has no
email address stored (Django's blank default). -/
structure User where
  id : Nat
  username : String
  full_name : String
  email : String
  role : String
  subscribed_publishers : List Nat
  subscribed_journalists : List Nat
deriving DecidableEq

/-- An article row (`news.models.Article`). `pk = none` is an article not
yet persisted. Timestamps are abstract `Nat` instants. -/
structure Article where
  pk : Option Nat
  title : String
  content : String
  summary : String
  author : Nat
  publisher : Option Nat
  is_approved : Bool
  approved_by : Option Nat
  approved_at : Option Nat
  published_at : Option Nat
deriving DecidableEq

/-- The relational store visible to the embedded code paths. -/
structure DB where
  articles : List Article
  users : List User
  publishers : List Publisher
  next_pk : Nat
deriving DecidableEq

/-- Sort key for `order_by('-published_at')`: a `NULL` timestamp sorts as
instant 0 (the backend-specific placement of NULLs is irrelevant to the
claims; articles reach the feed only once approved and stamped). -/
def pubKey (a : Article) : Nat :=
  a.published_at.getD 0

/-- The descending-`published_at` order used by every article listing. -/
def publishedDesc (a b : Article) : Prop :=
  pubKey b ≤ pubKey a

instance : DecidableRel publishedDesc :=
  fun a b => Nat.decLe (pubKey b) (pubKey a)

instance : IsTotal Article publishedDesc :=
  ⟨fun a b => Nat.le_total (pubKey b) (pubKey a)⟩

instance : IsTrans Article publishedDesc :=
  ⟨fun _ _ _ h1 h2 => Nat.le_trans h2 h1⟩

/-- The row filter of `ArticleViewSet.get_queryset`
(`api_views.py:50-54`): `Q(publisher_id__in=subscribed_publisher_ids) |
Q(author_id__in=subscribed_journalist_ids), is_approved=True`.  A `NULL`
`publisher_id` never matches an `__in` lookup. -/
def articleVisible (user : User) (a : Article) : Bool :=
  ((match a.publisher with
    | some p => user.subscribed_publishers.contains p
    | none => false)
   || user.subscribed_journalists.contains a.author)
  && a.is_approved

/-- `ArticleViewSet.get_queryset` (`api_views.py:34-56`): the articles
visible to the authenticated user, ordered by descending `published_at`.
This is the spec's `visible_articles(reader)`. -/
def get_queryset (db : DB) (user : User) : List Article :=
  List.insertionSort publishedDesc (db.articles.filter (articleVisible user))

/-- Response shape of the narrowed filter actions: `400` for a missing
query parameter, `403` for the subscription permission failure, `ok` for a
serialized article list. -/
inductive ApiResponse (α : Type) where
  | ok (data : α)
  | badRequest (msg : String)
  | forbidden (msg : String)
deriving DecidableEq

/-- `ArticleViewSet.by_publisher` (`api_views.py:58-85`): missing
`publisher_id` is a 400; an unsubscribed target is a 403; otherwise the
approved articles of that publisher, descending by `published_at`. -/
def by_publisher (db : DB) (user : User) (publisher_id : Option Nat) :
    ApiResponse (List Article) :=
  match publisher_id with
  | none => ApiResponse.badRequest "publisher_id query parameter is required"
  | some pid =>
    if !(user.subscribed_publishers.contains pid) then
      ApiResponse.forbidden "You are not subscribed to this publisher"
    else
      ApiResponse.ok (List.insertionSort publishedDesc
        (db.articles.filter (fun a => a.publisher == some pid && a.is_approved)))

/-- `ArticleViewSet.by_journalist` (`api_views.py:87-114`): same pattern
keyed on the author. -/
def by_journalist (db : DB) (user : User) (journalist_id : Option Nat) :
    ApiResponse (List Article) :=
  match journalist_id with
  | none => ApiResponse.badRequest "journalist_id query parameter is required"
  | some jid =>
    if !(user.subscribed_journalists.contains jid) then
      ApiResponse.forbidden "You are not subscribed to this journalist"
    else
      ApiResponse.ok (List.insertionSort publishedDesc
        (db.articles.filter (fun a => a.author == jid && a.is_approved)))

/-- `IsReaderOrReadOnly.has_permission` (`api_views.py:15-21`): despite its
name it only checks `request.user and request.user.is_authenticated`. -/
def IsReaderOrReadOnly_has_permission (is_authenticated : Bool) (_role : String) : Bool :=
  is_authenticated

/-- The combined permission gate of `ArticleViewSet`
(`permission_classes = [IsAuthenticated, IsReaderOrReadOnly]`). -/
def articles_list_allowed (is_authenticated : Bool) (role : String) : Bool :=
  is_authenticated && IsReaderOrReadOnly_has_permission is_authenticated role

/-- Python `s[:n]` for `n ≥ 0` (codepoint-wise prefix). -/
def pyTake (s : String) (n : Nat) : String :=
  String.mk (s.data.take n)

/-- Python `s[:k]` including a negative bound: `s[:k]` with `k < 0` keeps
`len(s) + k` leading characters, clamped at zero. -/
def pySliceTo (s : String) (k : Int) : String :=
  if 0 ≤ k then pyTake s k.toNat else pyTake s (s.length - (-k).toNat)

/-- The external settings and transport behaviour the fan-out interacts
with: `settings.EMAIL_*`/SMTP (does the batch send raise?),
`settings.TWITTER_BEARER_TOKEN` (`""` = unset/falsy), the social endpoint
(`none` = network exception, `some s` = HTTP status `s`),
`settings.ALLOWED_HOSTS[0]`, `settings.DEFAULT_FROM_EMAIL`, and the
current instant `timezone.now()`. -/
structure Env where
  email_send_fails : Bool
  twitter_bearer_token : String
  twitter_response : Option Nat
  allowed_host : String
  default_from_email : String
  now : Nat
deriving DecidableEq

/-- One entry of the `send_mass_mail` batch: `(subject, message, from,
recipient_list)`. -/
structure EmailMsg where
  subject : String
  body : String
  from_email : String
  recipient_list : List String
deriving DecidableEq

/-- `django.core.mail.send_mass_mail` with `fail_silently=False`: raises
(`Except.error`) when the transport fails, else returns the count sent. -/
def send_mass_mail (env : Env) (msgs : List EmailMsg) : Except String Nat :=
  if env.email_send_fails then Except.error "SMTP failure" else Except.ok msgs.length

/-- `CustomUser.objects.filter(role='reader',
subscribed_publishers=article.publisher)` (`signals.py:61-64`). -/
def publisher_subscribers (users : List User) (p : Nat) : List User :=
  users.filter (fun u => u.role == "reader" && u.subscribed_publishers.contains p)

/-- `CustomUser.objects.filter(role='reader',
subscribed_journalists=article.author)` (`signals.py:68-71`). -/
def journalist_subscribers (users : List User) (j : Nat) : List User :=
  users.filter (fun u => u.role == "reader" && u.subscribed_journalists.contains j)

/-- `set.update` on a Python set of model instances: instances hash by
primary key, so only users whose `id` is not already present are added. -/
def set_update (s : List User) (xs : List User) : List User :=
  s ++ xs.filter (fun u => !(s.any (fun v => v.id == u.id)))

/-- The `subscribers` set built at `signals.py:57-72`: publisher
subscribers (when the article has a publisher) unioned with the author's
subscribers. -/
def subscribers_of (users : List User) (article : Article) : List User :=
  set_update
    (match article.publisher with
     | some p => set_update [] (publisher_subscribers users p)
     | none => [])
    (journalist_subscribers users article.author)

/-- `article.author.get_full_name() or article.author.username` and the
`article.publisher.name if article.publisher else 'Independent'` lookups
used by the email body (`signals.py:89-90`). -/
def author_display (users : List User) (author : Nat) : String :=
  match users.find? (fun u => u.id == author) with
  | some u => if u.full_name == "" then u.username else u.full_name
  | none => ""

def publisher_display (publishers : List Publisher) : Option Nat → String
  | some pid =>
    match publishers.find? (fun p => p.id == pid) with
    | some p => p.name
    | none => "Independent"
  | none => "Independent"

/-- The canonical article link `f"{settings.ALLOWED_HOSTS[0]}/articles/{article.id}/"`. -/
def article_url (env : Env) (article : Article) : String :=
  env.allowed_host ++ "/articles/" ++ toString (article.pk.getD 0) ++ "/"

/-- The shared `message_template` body of `signals.py:83-99`: title,
author display name, publisher name (or `Independent`), the summary (or
the first 200 characters of the content with an ellipsis), and the link. -/
def email_body (env : Env) (db : DB) (article : Article) : String :=
  "\nHello,\n\nA new article has been published that you might be interested in:\n\nTitle: "
    ++ article.title
    ++ "\nAuthor: " ++ author_display db.users article.author
    ++ "\nPublisher: " ++ publisher_display db.publishers article.publisher
    ++ "\n\nSummary:\n"
    ++ (if article.summary == "" then pyTake article.content 200 ++ "..." else article.summary)
    ++ "\n\nRead the full article at: " ++ article_url env article
    ++ "\n\nBest regards,\nNews Application Team\n    "

/-- The batch entry built for one subscriber at `signals.py:105-110`:
`(subject, message_template, DEFAULT_FROM_EMAIL, [subscriber.email])`. -/
def email_msg_for (env : Env) (db : DB) (article : Article) (u : User) : EmailMsg :=
  { subject := "New Article Published: " ++ article.title
    body := email_body env db article
    from_email := env.default_from_email
    recipient_list := [u.email] }

/-- One batch entry per subscriber that has a (non-empty) email address
(`signals.py:102-110`, the `if subscriber.email:` guard). -/
def emails_for (env : Env) (db : DB) (article : Article) (subscribers : List User) :
    List EmailMsg :=
  (subscribers.filter (fun u => !(u.email == ""))).map (email_msg_for env db article)

/-- Observable outcome of the email channel: who was resolved, which batch
entries were built, whether `send_mass_mail` was invoked, and whether a
raised transport error was caught and logged.  The function is total: no
exception escapes `send_article_to_subscribers`. -/
structure EmailOutcome where
  recipients : List User
  messages : List EmailMsg
  attempted : Bool
  error_logged : Bool
deriving DecidableEq

def emptyEmailOutcome : EmailOutcome :=
  { recipients := [], messages := [], attempted := false, error_logged := false }

/-- `send_article_to_subscribers` (`signals.py:53-118`): resolve the
subscriber set, return early when it is empty, build one batch entry per
subscriber with an email address, and send the batch inside `try/except`
(the `error` branch is the logged `except` arm). -/
def send_article_to_subscribers (env : Env) (db : DB) (article : Article) :
    EmailOutcome :=
  let subscribers := subscribers_of db.users article
  if subscribers.isEmpty then
    emptyEmailOutcome
  else
    let emails := emails_for env db article subscribers
    if emails.isEmpty then
      { recipients := subscribers, messages := [], attempted := false, error_logged := false }
    else
      match send_mass_mail env emails with
      | Except.ok _ =>
        { recipients := subscribers, messages := emails, attempted := true, error_logged := false }
      | Except.error _ =>
        { recipients := subscribers, messages := emails, attempted := true, error_logged := true }

/-- The tweet text assembled at `signals.py:131-145`: title line, then —
when a summary exists — a summary fragment cut to `280 - len(prefix) - 30`
characters (Python slice semantics, bound may be negative) with an
ellipsis when cut, then the link; finally hard-truncated to
`text[:277] + "..."` when still over 280. -/
def tweet_text_of (env : Env) (article : Article) : String :=
  let t0 := "📰 New Article: " ++ article.title ++ "\n\n"
  let t1 :=
    if article.summary == "" then t0
    else
      let remaining_chars : Int := 280 - (t0.length : Int) - 30
      let summary :=
        if (article.summary.length : Int) > remaining_chars then
          pySliceTo article.summary remaining_chars ++ "..."
        else article.summary
      t0 ++ summary ++ "\n\n"
  let t2 := t1 ++ "Read more: " ++ article_url env article
  if t2.length > 280 then pyTake t2 277 ++ "..." else t2

/-- `requests.post` against the social endpoint: a network failure raises,
otherwise an HTTP status comes back. -/
def requests_post (env : Env) : Except String Nat :=
  match env.twitter_response with
  | none => Except.error "network failure"
  | some s => Except.ok s

/-- Observable outcome of the social channel.  Total: no exception escapes
`post_article_to_twitter`. -/
structure TweetOutcome where
  attempted : Bool
  text : Option String
  succeeded : Bool
  error_logged : Bool
deriving DecidableEq

def emptyTweetOutcome : TweetOutcome :=
  { attempted := false, text := none, succeeded := false, error_logged := false }

/-- `post_article_to_twitter` (`signals.py:121-168`): skip silently when
the bearer token is unset, else build the clipped text and POST it inside
`try/except`; success is HTTP 201, any other status or a raised transport
error is logged and swallowed. -/
def post_article_to_twitter (env : Env) (article : Article) : TweetOutcome :=
  if env.twitter_bearer_token == "" then
    emptyTweetOutcome
  else
    let text := tweet_text_of env article
    match requests_post env with
    | Except.ok s =>
      if s == 201 then
        { attempted := true, text := some text, succeeded := true, error_logged := false }
      else
        { attempted := true, text := some text, succeeded := false, error_logged := true }
    | Except.error _ =>
      { attempted := true, text := some text, succeeded := false, error_logged := true }

/-- `track_approval_status` (`signals.py:13-25`), the `pre_save` edge
detector: the `_approval_changed` flag is true only when the incoming article has
a primary key, a prior persisted row exists, and that row was unapproved
while the incoming article is approved; otherwise (new article, or
`Article.DoesNotExist`) it is false. -/
def track_approval_status (rows : List Article) (inst : Article) : Bool :=
  match inst.pk with
  | some pid =>
    match rows.find? (fun a => a.pk == some pid) with
    | some old_instance => !old_instance.is_approved && inst.is_approved
    | none => false
  | none => false

/-- The row write performed by `Article.save()`: update in place when a
row with the incoming article's primary key exists, otherwise insert
(assigning a fresh primary key when it has none).  Returns the store, the
saved article (with its primary key populated) and Django's `created`
flag. -/
def db_write (db : DB) (inst : Article) : DB × Article × Bool :=
  match inst.pk with
  | some pid =>
    if db.articles.any (fun a => a.pk == some pid) then
      ({ db with articles := db.articles.map (fun a => if a.pk == some pid then inst else a) },
       inst, false)
    else
      ({ db with articles := db.articles ++ [inst] }, inst, true)
  | none =>
    let inst := { inst with pk := some db.next_pk }
    ({ db with articles := db.articles ++ [inst], next_pk := db.next_pk + 1 }, inst, true)

/-- Joint outcome of the `post_save` hook on one save. -/
structure FanoutOutcome where
  fired : Bool
  stamped : Bool
  emails : EmailOutcome
  tweet : TweetOutcome
deriving DecidableEq

def emptyFanout : FanoutOutcome :=
  { fired := false, stamped := false, emails := emptyEmailOutcome, tweet := emptyTweetOutcome }

/-- `article_approved_actions` (`signals.py:28-50`), the `post_save` hook:
when the `pre_save` flag says the approval edge fired, stamp
`approved_at`/`published_at` on the row if `approved_at` is still unset
(a targeted `.update(...)` touching only those two columns), then run the
email channel and then the social channel.  The `created` flag of
`post_save` is accepted but never consulted — only `_approval_changed`
gates the block. -/
def article_approved_actions (env : Env) (db : DB) (inst : Article)
    (_created : Bool) (approval_changed : Bool) : DB × FanoutOutcome :=
  if approval_changed then
    let stamped := inst.approved_at.isNone
    let inst2 :=
      if stamped then
        { inst with approved_at := some env.now, published_at := some env.now }
      else inst
    let db2 :=
      if stamped then
        { db with articles := db.articles.map (fun a =>
            if a.pk == inst.pk then
              { a with approved_at := some env.now, published_at := some env.now }
            else a) }
      else db
    let e := send_article_to_subscribers env db2 inst2
    let t := post_article_to_twitter env inst2
    (db2, { fired := true, stamped := stamped, emails := e, tweet := t })
  else
    (db, emptyFanout)

/-- `Article.save()` as seen by callers: `pre_save` edge detection against
the persisted rows, the row write, then the `post_save` actions. -/
def article_save (env : Env) (db : DB) (inst : Article) : DB × FanoutOutcome :=
  let approval_changed := track_approval_status db.articles inst
  let written := db_write db inst
  article_approved_actions env written.1 written.2.1 written.2.2 approval_changed

/-- Group permissions derived from the role, per
`CustomUser.set_group_permissions` (`models.py:100-134`): readers get the
`view_` permissions, editors view/change/delete, journalists everything on
articles and newsletters. -/
def role_permissions : String → List String
  | "reader" => ["view_article", "view_newsletter"]
  | "editor" =>
    ["view_article", "change_article", "delete_article",
     "view_newsletter", "change_newsletter", "delete_newsletter"]
  | "journalist" =>
    ["add_article", "view_article", "change_article", "delete_article",
     "add_newsletter", "view_newsletter", "change_newsletter", "delete_newsletter"]
  | _ => []

/-- `user.has_perm('news.<p>')` through the role group. -/
def has_perm (u : User) (p : String) : Bool :=
  (role_permissions u.role).contains p

/-- HTTP-level outcome of `article_approve_view`: `forbidden` is the
`PermissionDenied` (403) raised by `@permission_required(...,
raise_exception=True)`; `denied_redirect` is the in-body role check's
error message plus redirect to home; `redirect_dashboard` carries whether
the success message was the approved one. -/
inductive ApproveOutcome where
  | forbidden
  | denied_redirect
  | not_found
  | render_form
  | redirect_dashboard (approved : Bool)
deriving DecidableEq

structure ViewResult where
  db : DB
  outcome : ApproveOutcome
  fanout : FanoutOutcome
deriving DecidableEq

/-- `article_approve_view` (`views.py:213-246`): the
`news.change_article` permission gate, the editor-role check, the 404
lookup, and — on a valid POST of `ArticleApprovalForm` (a single
`is_approved` checkbox) — the stamping of `approved_by` /
`approved_at` / `published_at` whenever the submitted flag is true,
followed by `article.save()`. -/
def article_approve_view (env : Env) (db : DB) (user : User) (pk : Nat)
    (is_post : Bool) (form_is_approved : Bool) : ViewResult :=
  if !(has_perm user "change_article") then
    { db := db, outcome := ApproveOutcome.forbidden, fanout := emptyFanout }
  else if !(user.role == "editor") then
    { db := db, outcome := ApproveOutcome.denied_redirect, fanout := emptyFanout }
  else
    match db.articles.find? (fun a => a.pk == some pk) with
    | none => { db := db, outcome := ApproveOutcome.not_found, fanout := emptyFanout }
    | some article =>
      if is_post then
        let a1 := { article with is_approved := form_is_approved }
        let a2 :=
          if a1.is_approved then
            { a1 with approved_by := some user.id,
                      approved_at := some env.now, published_at := some env.now }
          else a1
        let saved := article_save env db a2
        { db := saved.1, outcome := ApproveOutcome.redirect_dashboard a2.is_approved,
          fanout := saved.2 }
      else
        { db := db, outcome := ApproveOutcome.render_form, fanout := emptyFanout }

/-! ### Concrete fixtures for witnesses and counterexamples -/

def pub1 : Publisher := { id := 1, name := "Daily Planet" }

def pub2 : Publisher := { id := 2, name := "Empty Press" }

def journalist1 : User :=
  { id := 20, username := "clark", full_name := "Clark Kent", email := "clark@dp.example",
    role := "journalist", subscribed_publishers := [], subscribed_journalists := [] }

def editor1 : User :=
  { id := 10, username := "perry", full_name := "Perry White", email := "perry@dp.example",
    role := "editor", subscribed_publishers := [], subscribed_journalists := [] }

/-- A reader subscribed to publisher 1 and to journalist 20 (both routes). -/
def reader1 : User :=
  { id := 30, username := "lois", full_name := "", email := "lois@dp.example",
    role := "reader", subscribed_publishers := [1], subscribed_journalists := [20] }

/-- A reader subscribed to journalist 20 with no email address stored. -/
def reader_no_email : User :=
  { id := 31, username := "jimmy", full_name := "", email := "",
    role := "reader", subscribed_publishers := [], subscribed_journalists := [20] }

/-- A reader with no subscriptions at all. -/
def reader_unsubscribed : User :=
  { id := 32, username := "ron", full_name := "", email := "ron@dp.example",
    role := "reader", subscribed_publishers := [], subscribed_journalists := [] }

/-- A reader subscribed to content-free targets (publisher 2, journalist 21). -/
def reader2 : User :=
  { id := 33, username := "cat", full_name := "", email := "cat@dp.example",
    role := "reader", subscribed_publishers := [2], subscribed_journalists := [21] }

/-- An editor whose dormant subscription sets match `reader1`. -/
def editor_subscribed : User :=
  { id := 11, username := "maggie", full_name := "", email := "maggie@dp.example",
    role := "editor", subscribed_publishers := [1], subscribed_journalists := [20] }

def art1 : Article :=
  { pk := some 1, title := "A1", content := "content one", summary := "s1",
    author := 20, publisher := some 1, is_approved := true,
    approved_by := some 10, approved_at := some 5, published_at := some 5 }

def art2 : Article :=
  { pk := some 2, title := "A2", content := "content two", summary := "",
    author := 20, publisher := none, is_approved := true,
    approved_by := some 10, approved_at := some 7, published_at := some 7 }

def art3 : Article :=
  { pk := some 3, title := "A3", content := "content three", summary := "s3",
    author := 20, publisher := some 1, is_approved := false,
    approved_by := none, approved_at := none, published_at := none }

def db0 : DB :=
  { articles := [art1, art2, art3],
    users := [journalist1, editor1, reader1, reader_no_email, reader_unsubscribed, reader2],
    publishers := [pub1, pub2], next_pk := 4 }

def env0 : Env :=
  { email_send_fails := false, twitter_bearer_token := "", twitter_response := some 201,
    allowed_host := "example.com", default_from_email := "news@example.com", now := 9 }

/-! ### Claims -/

/-- C6: for every reader and every article with `is_approved = false`, the
article does not appear in `visible_articles(reader)` (the feed of
`get_queryset`), regardless of the reader's subscriptions. -/
theorem c6_unapproved_never_visible (db : DB) (user : User) (a : Article)
    (h : a.is_approved = false) : a ∉ get_queryset db user := by
  intro hmem
  rw [get_queryset, List.mem_insertionSort, List.mem_filter] at hmem
  simp [articleVisible, h] at hmem

theorem c6_witness :
    art3.is_approved = false ∧ art3 ∉ get_queryset db0 reader1 :=
  ⟨rfl, c6_unapproved_never_visible db0 reader1 art3 rfl⟩

/-- C5: filtering by an unsubscribed publisher or journalist always yields
the 403 authorization response, never a list; filtering by a subscribed
target that has no approved content yields the empty list. -/
theorem c5_narrow_filter_authz (db : DB) (user : User) (pid jid : Nat) :
    (user.subscribed_publishers.contains pid = false →
      by_publisher db user (some pid) =
        ApiResponse.forbidden "You are not subscribed to this publisher") ∧
    (user.subscribed_publishers.contains pid = true →
      (∀ a ∈ db.articles, ¬(a.publisher = some pid ∧ a.is_approved = true)) →
      by_publisher db user (some pid) = ApiResponse.ok []) ∧
    (user.subscribed_journalists.contains jid = false →
      by_journalist db user (some jid) =
        ApiResponse.forbidden "You are not subscribed to this journalist") ∧
    (user.subscribed_journalists.contains jid = true →
      (∀ a ∈ db.articles, ¬(a.author = jid ∧ a.is_approved = true)) →
      by_journalist db user (some jid) = ApiResponse.ok []) := by
  refine ⟨?_, ?_, ?_, ?_⟩
  · intro h
    have h' : pid ∉ user.subscribed_publishers := by simpa using h
    simp [by_publisher, h']
  · intro h hempty
    have h' : pid ∈ user.subscribed_publishers := by simpa using h
    have hnil : db.articles.filter (fun a => a.publisher == some pid && a.is_approved) = [] := by
      rw [List.filter_eq_nil_iff]
      intro a ha hcontra
      simp only [Bool.and_eq_true, beq_iff_eq] at hcontra
      exact hempty a ha ⟨hcontra.1, hcontra.2⟩
    simp [by_publisher, h', hnil, List.insertionSort]
  · intro h
    have h' : jid ∉ user.subscribed_journalists := by simpa using h
    simp [by_journalist, h']
  · intro h hempty
    have h' : jid ∈ user.subscribed_journalists := by simpa using h
    have hnil : db.articles.filter (fun a => a.author == jid && a.is_approved) = [] := by
      rw [List.filter_eq_nil_iff]
      intro a ha hcontra
      simp only [Bool.and_eq_true, beq_iff_eq] at hcontra
      exact hempty a ha ⟨hcontra.1, hcontra.2⟩
    simp [by_journalist, h', hnil, List.insertionSort]

theorem c5_witness :
    (by_publisher db0 reader_unsubscribed (some 1) =
       ApiResponse.forbidden "You are not subscribed to this publisher") ∧
    (by_publisher db0 reader2 (some 2) = ApiResponse.ok []) ∧
    (by_journalist db0 reader_unsubscribed (some 20) =
       ApiResponse.forbidden "You are not subscribed to this journalist") ∧
    (by_journalist db0 reader2 (some 21) = ApiResponse.ok []) :=
  ⟨(c5_narrow_filter_authz db0 reader_unsubscribed 1 20).1 (by decide),
   (c5_narrow_filter_authz db0 reader2 2 21).2.1 (by decide) (by decide),
   (c5_narrow_filter_authz db0 reader_unsubscribed 1 20).2.2.1 (by decide),
   (c5_narrow_filter_authz db0 reader2 2 21).2.2.2 (by decide) (by decide)⟩

/-- C9: the `GET /articles` gate only requires authentication (no reader
role check); the feed itself is computed purely from the requester's
subscription sets, so any two users with the same sets get the same feed
whatever their roles, and a user with empty sets gets the empty list
rather than a role error. -/
theorem c9_feed_is_role_blind (db : DB) (u1 u2 : User) (is_authenticated : Bool)
    (role : String)
    (hp : u1.subscribed_publishers = u2.subscribed_publishers)
    (hj : u1.subscribed_journalists = u2.subscribed_journalists) :
    articles_list_allowed is_authenticated role = is_authenticated ∧
    get_queryset db u1 = get_queryset db u2 ∧
    (u1.subscribed_publishers = [] → u1.subscribed_journalists = [] →
      get_queryset db u1 = []) := by
  refine ⟨?_, ?_, ?_⟩
  · cases is_authenticated <;> rfl
  · have hv : articleVisible u1 = articleVisible u2 := by
      funext a
      unfold articleVisible
      rw [hp, hj]
    rw [get_queryset, get_queryset, hv]
  · intro h1 h2
    have hnil : db.articles.filter (articleVisible u1) = [] := by
      rw [List.filter_eq_nil_iff]
      intro a _
      unfold articleVisible
      rw [h1, h2]
      cases a.publisher <;> simp
    rw [get_queryset, hnil]
    rfl

theorem c9_witness :
    editor_subscribed.subscribed_publishers = reader1.subscribed_publishers ∧
    editor_subscribed.subscribed_journalists = reader1.subscribed_journalists ∧
    (articles_list_allowed true "editor" = true ∧
     get_queryset db0 editor_subscribed = get_queryset db0 reader1 ∧
     (editor_subscribed.subscribed_publishers = [] →
      editor_subscribed.subscribed_journalists = [] →
      get_queryset db0 editor_subscribed = [])) :=
  ⟨rfl, rfl, c9_feed_is_role_blind db0 editor_subscribed reader1 true "editor" rfl rfl⟩

/-- Helper for C7: the final hard truncation of the tweet text caps the
length at 280 characters. -/
theorem clip280_length_le (s : String) :
    (if s.length > 280 then pyTake s 277 ++ "..." else s).length ≤ 280 := by
  have htake : (pyTake s 277).length = min 277 s.length := by
    unfold pyTake
    rw [String.length_mk, List.length_take]
    rfl
  split
  next _ =>
    rw [String.length_append, htake]
    have h3 : ("..." : String).length = 3 := rfl
    rw [h3]
    omega
  next h => omega

/-- C7: for every article and settings, the assembled social-post text is
at most 280 characters long. -/
theorem c7_tweet_length_le_280 (env : Env) (article : Article) :
    (tweet_text_of env article).length ≤ 280 := by
  unfold tweet_text_of
  exact clip280_length_le _

/-- C8: a user whose role is not editor is hard-denied by the approve
view — either the `PermissionDenied` (403) of the permission decorator or
the role check's error redirect, never a silent success — and the store
is left untouched with no fan-out. -/
theorem c8_noneditor_approve_denied (env : Env) (db : DB) (user : User) (pk : Nat)
    (is_post form_is_approved : Bool) (h : user.role ≠ "editor") :
    (article_approve_view env db user pk is_post form_is_approved).db = db ∧
    (article_approve_view env db user pk is_post form_is_approved).fanout = emptyFanout ∧
    ((article_approve_view env db user pk is_post form_is_approved).outcome =
        ApproveOutcome.forbidden ∨
     (article_approve_view env db user pk is_post form_is_approved).outcome =
        ApproveOutcome.denied_redirect) := by
  have hrole : (user.role == "editor") = false := by
    simp [h]
  unfold article_approve_view
  cases hp : has_perm user "change_article" <;> simp [hp, hrole]

theorem c8_witness :
    journalist1.role ≠ "editor" ∧
    ((article_approve_view env0 db0 journalist1 3 true true).db = db0 ∧
     (article_approve_view env0 db0 journalist1 3 true true).fanout = emptyFanout ∧
     ((article_approve_view env0 db0 journalist1 3 true true).outcome =
         ApproveOutcome.forbidden ∨
      (article_approve_view env0 db0 journalist1 3 true true).outcome =
         ApproveOutcome.denied_redirect)) :=
  ⟨by decide, c8_noneditor_approve_denied env0 db0 journalist1 3 true true (by decide)⟩

/-- C1: the feed contains exactly the approved articles whose publisher or
author the reader subscribes to (membership), each exactly once even when
both routes apply (count, for a duplicate-free store), ordered by
descending `published_at`; empty subscription sets give the empty
sequence, not an error. -/
theorem c1_visible_articles_spec (db : DB) (user : User) (hnd : db.articles.Nodup) :
    (∀ a : Article, a ∈ get_queryset db user ↔
       a ∈ db.articles ∧ a.is_approved = true ∧
         ((∃ p, a.publisher = some p ∧ p ∈ user.subscribed_publishers) ∨
          a.author ∈ user.subscribed_journalists)) ∧
    (∀ a ∈ get_queryset db user, (get_queryset db user).count a = 1) ∧
    List.Sorted publishedDesc (get_queryset db user) ∧
    (user.subscribed_publishers = [] → user.subscribed_journalists = [] →
      get_queryset db user = []) := by
  refine ⟨?_, ?_, ?_, ?_⟩
  · intro a
    rw [get_queryset, List.mem_insertionSort, List.mem_filter]
    unfold articleVisible
    cases hpub : a.publisher <;> simp [hpub] <;> tauto
  · intro a ha
    rw [get_queryset] at ha ⊢
    rw [(List.perm_insertionSort publishedDesc
          (db.articles.filter (articleVisible user))).count_eq]
    refine List.count_eq_one_of_mem (hnd.filter _) ?_
    rwa [List.mem_insertionSort] at ha
  · exact List.sorted_insertionSort publishedDesc _
  · intro h1 h2
    have hnil : db.articles.filter (articleVisible user) = [] := by
      rw [List.filter_eq_nil_iff]
      intro a _
      unfold articleVisible
      rw [h1, h2]
      cases a.publisher <;> simp
    rw [get_queryset, hnil]
    rfl

theorem c1_witness :
    db0.articles.Nodup ∧
    ((∀ a : Article, a ∈ get_queryset db0 reader1 ↔
        a ∈ db0.articles ∧ a.is_approved = true ∧
          ((∃ p, a.publisher = some p ∧ p ∈ reader1.subscribed_publishers) ∨
           a.author ∈ reader1.subscribed_journalists)) ∧
     (∀ a ∈ get_queryset db0 reader1, (get_queryset db0 reader1).count a = 1) ∧
     List.Sorted publishedDesc (get_queryset db0 reader1) ∧
     (reader1.subscribed_publishers = [] → reader1.subscribed_journalists = [] →
       get_queryset db0 reader1 = [])) :=
  ⟨by decide, c1_visible_articles_spec db0 reader1 (by decide)⟩

/-- C2 (evidence of the code bug): re-submitting the approval form for the
already-approved `art1` (persisted `approved_at = published_at = 5`) at
instant 9 triggers no second fan-out, but the view re-stamps both
timestamps to 9 — they are not left unchanged as the claim requires. -/
theorem c2_reapproval_restamps :
    art1.is_approved = true ∧
    art1.approved_at = some 5 ∧ art1.published_at = some 5 ∧
    (article_approve_view env0 db0 editor1 1 true true).fanout = emptyFanout ∧
    ((article_approve_view env0 db0 editor1 1 true true).db.articles.find?
        (fun a => a.pk == some 1)).map Article.approved_at = some (some 9) ∧
    ((article_approve_view env0 db0 editor1 1 true true).db.articles.find?
        (fun a => a.pk == some 1)).map Article.published_at = some (some 9) := by
  decide

/-- C10: a first save that already carries `is_approved = true` (no
primary key, or no prior persisted row) never fires the fan-out and never
stamps the timestamps: the store is exactly the raw row write and the
written row keeps the instance's own `approved_at`/`published_at`; and in
general the pre-save flag is true precisely when a previously persisted
unapproved row is re-saved as approved. -/
theorem c10_first_save_no_fanout :
    (∀ (env : Env) (db : DB) (a : Article),
       a.pk = none ∨ db.articles.find? (fun r => r.pk == a.pk) = none →
       track_approval_status db.articles a = false ∧
       article_save env db a = ((db_write db a).1, emptyFanout) ∧
       (db_write db a).2.1.approved_at = a.approved_at ∧
       (db_write db a).2.1.published_at = a.published_at) ∧
    (∀ (db : DB) (a : Article),
       track_approval_status db.articles a = true ↔
       ∃ pid old_row, a.pk = some pid ∧
         db.articles.find? (fun r => r.pk == some pid) = some old_row ∧
         old_row.is_approved = false ∧ a.is_approved = true) := by
  constructor
  · intro env db a h
    have htr : track_approval_status db.articles a = false := by
      cases hpk : a.pk with
      | none => simp [track_approval_status, hpk]
      | some pid =>
        rcases h with h | h
        · rw [hpk] at h
          cases h
        · rw [hpk] at h
          simp [track_approval_status, hpk, h]
    refine ⟨htr, ?_, ?_, ?_⟩
    · simp [article_save, htr, article_approved_actions]
    · cases hpk : a.pk <;> simp [db_write, hpk] <;> split <;> rfl
    · cases hpk : a.pk <;> simp [db_write, hpk] <;> split <;> rfl
  · intro db a
    unfold track_approval_status
    cases hpk : a.pk with
    | none => simp
    | some pid =>
      cases hf : db.articles.find? (fun r => r.pk == some pid) with
      | none => simp [hf]
      | some old_row => simp [hf, Bool.and_eq_true, Bool.not_eq_true']

theorem c10_witness :
    (let newArt : Article :=
      { pk := none, title := "N", content := "c", summary := "",
        author := 20, publisher := none, is_approved := true,
        approved_by := none, approved_at := none, published_at := none }
     track_approval_status db0.articles newArt = false ∧
     article_save env0 db0 newArt = ((db_write db0 newArt).1, emptyFanout) ∧
     (db_write db0 newArt).2.1.approved_at = newArt.approved_at ∧
     (db_write db0 newArt).2.1.published_at = newArt.published_at) ∧
    (track_approval_status db0.articles art3 = true ↔
       ∃ pid old_row, art3.pk = some pid ∧
         db0.articles.find? (fun r => r.pk == some pid) = some old_row ∧
         old_row.is_approved = false ∧ art3.is_approved = true) :=
  ⟨c10_first_save_no_fanout.1 env0 db0 _ (Or.inl rfl),
   c10_first_save_no_fanout.2 db0 art3⟩

/-- Helper: in a store whose user ids are unique, two stored users with
the same id are the same row. -/
theorem users_id_inj (users : List User) (hnd : (users.map User.id).Nodup)
    {u v : User} (hu : u ∈ users) (hv : v ∈ users) (h : v.id = u.id) : v = u :=
  List.inj_on_of_nodup_map hnd hv hu h

/-- Helper: `set.update` starting from the empty set is the added
queryset. -/
theorem set_update_nil (xs : List User) : set_update [] xs = xs := by
  simp [set_update]

/-- Helper: membership in the pk-keyed union, for querysets drawn from an
id-unique user table. -/
theorem set_update_mem (users A B : List User) (hnd : (users.map User.id).Nodup)
    (hA : ∀ x ∈ A, x ∈ users) (hB : ∀ x ∈ B, x ∈ users) (u : User) :
    u ∈ set_update A B ↔ u ∈ A ∨ u ∈ B := by
  unfold set_update
  rw [List.mem_append, List.mem_filter]
  constructor
  · rintro (h | ⟨h, _⟩)
    exacts [Or.inl h, Or.inr h]
  · rintro (h | h)
    · exact Or.inl h
    · by_cases hq : A.any (fun v => v.id == u.id) = true
      · rw [List.any_eq_true] at hq
        obtain ⟨v, hv, hvid⟩ := hq
        rw [beq_iff_eq] at hvid
        have hvu : v = u := users_id_inj users hnd (hB u h) (hA v hv) hvid
        exact Or.inl (hvu ▸ hv)
      · have hq' : A.any (fun v => v.id == u.id) = false := Bool.eq_false_iff.mpr hq
        exact Or.inr ⟨h, by simp [hq']⟩

/-- Helper: the pk-keyed union of two id-unique querysets is id-unique. -/
theorem set_update_id_nodup (A B : List User)
    (hA : (A.map User.id).Nodup) (hB : (B.map User.id).Nodup) :
    ((set_update A B).map User.id).Nodup := by
  unfold set_update
  rw [List.map_append]
  refine List.Nodup.append hA (hB.sublist ((List.filter_sublist B).map User.id)) ?_
  intro x hxA hxB
  rw [List.mem_map] at hxB
  obtain ⟨v, hv, hvid⟩ := hxB
  rw [List.mem_filter] at hv
  have hany : A.any (fun w => w.id == v.id) = false := by
    have := hv.2
    rwa [Bool.not_eq_true'] at this
  rw [List.any_eq_false] at hany
  rw [List.mem_map] at hxA
  obtain ⟨w, hw, hwid⟩ := hxA
  exact hany w hw (by rw [beq_iff_eq, hwid, hvid])

/-- Helper: each subscriber queryset draws from the user table. -/
theorem publisher_subscribers_subset (users : List User) (p : Nat) :
    ∀ x ∈ publisher_subscribers users p, x ∈ users :=
  fun _ hx => (List.mem_filter.mp hx).1

theorem journalist_subscribers_subset (users : List User) (j : Nat) :
    ∀ x ∈ journalist_subscribers users j, x ∈ users :=
  fun _ hx => (List.mem_filter.mp hx).1

/-- Helper: the subscriber set resolved by the fan-out is exactly the
readers subscribed to the article's publisher or author. -/
theorem subscribers_of_mem (users : List User) (article : Article)
    (hnd : (users.map User.id).Nodup) (u : User) :
    u ∈ subscribers_of users article ↔
      u ∈ users ∧ u.role = "reader" ∧
        ((∃ p, article.publisher = some p ∧ p ∈ u.subscribed_publishers) ∨
         article.author ∈ u.subscribed_journalists) := by
  unfold subscribers_of
  cases hpub : article.publisher with
  | none =>
    rw [set_update_nil]
    unfold journalist_subscribers
    rw [List.mem_filter]
    simp [hpub]
  | some p =>
    dsimp only
    rw [set_update_nil]
    rw [set_update_mem users (publisher_subscribers users p)
          (journalist_subscribers users article.author) hnd
          (publisher_subscribers_subset users p)
          (journalist_subscribers_subset users article.author) u]
    unfold publisher_subscribers journalist_subscribers
    rw [List.mem_filter, List.mem_filter]
    simp only [Bool.and_eq_true, beq_iff_eq, List.elem_iff, hpub,
      Option.some.injEq]
    constructor
    · rintro (⟨hu, hr, hp⟩ | ⟨hu, hr, hj⟩)
      · exact ⟨hu, hr, Or.inl ⟨p, rfl, hp⟩⟩
      · exact ⟨hu, hr, Or.inr hj⟩
    · rintro ⟨hu, hr, ⟨q, hq, hqmem⟩ | hj⟩
      · cases hq
        exact Or.inl ⟨hu, hr, hqmem⟩
      · exact Or.inr ⟨hu, hr, hj⟩

/-- Helper: the resolved subscriber set contains each reader at most once
(ids are unique), for an id-unique user table. -/
theorem subscribers_of_id_nodup (users : List User) (article : Article)
    (hnd : (users.map User.id).Nodup) :
    ((subscribers_of users article).map User.id).Nodup := by
  unfold subscribers_of
  have hsubl : ∀ p : Nat → Bool,
      ((users.filter (fun u => p u.id)).map User.id).Nodup := by
    intro p
    exact hnd.sublist ((List.filter_sublist users).map User.id)
  cases hpub : article.publisher with
  | none =>
    rw [set_update_nil]
    exact hnd.sublist ((List.filter_sublist users).map User.id)
  | some p =>
    dsimp only
    rw [set_update_nil]
    exact set_update_id_nodup _ _
      (hnd.sublist ((List.filter_sublist users).map User.id))
      (hnd.sublist ((List.filter_sublist users).map User.id))

/-- C3 (amended): on the approval fan-out, the resolved recipient set is
the distinct union of the publisher's and the author's readers (each at
most once, even via both routes); one batch entry is generated per
recipient that has a non-empty email address — exactly one per such
recipient when stored emails are distinct — and recipients without an
email address get none; an empty recipient set sends no batch and raises
no error. -/
theorem c3_fanout_recipients (env : Env) (db : DB) (article : Article)
    (hnd : (db.users.map User.id).Nodup)
    (hem : ((db.users.filter (fun u => !(u.email == ""))).map User.email).Nodup) :
    (send_article_to_subscribers env db article).recipients =
      subscribers_of db.users article ∧
    (∀ u : User, u ∈ subscribers_of db.users article ↔
       u ∈ db.users ∧ u.role = "reader" ∧
         ((∃ p, article.publisher = some p ∧ p ∈ u.subscribed_publishers) ∨
          article.author ∈ u.subscribed_journalists)) ∧
    ((subscribers_of db.users article).map User.id).Nodup ∧
    (send_article_to_subscribers env db article).messages =
      emails_for env db article (subscribers_of db.users article) ∧
    (∀ u ∈ subscribers_of db.users article, ¬(u.email = "") →
       (send_article_to_subscribers env db article).messages.count
         (email_msg_for env db article u) = 1) ∧
    (subscribers_of db.users article = [] →
       (send_article_to_subscribers env db article).attempted = false ∧
       (send_article_to_subscribers env db article).messages = []) := by
  have hrec : (send_article_to_subscribers env db article).recipients =
      subscribers_of db.users article := by
    unfold send_article_to_subscribers
    dsimp only
    split
    next h => simp [emptyEmailOutcome, List.isEmpty_iff.mp h]
    next _ =>
      split
      next _ => rfl
      next _ =>
        split <;> rfl
  have hmsgs : (send_article_to_subscribers env db article).messages =
      emails_for env db article (subscribers_of db.users article) := by
    unfold send_article_to_subscribers
    dsimp only
    split
    next h =>
      rw [List.isEmpty_iff.mp h]
      simp [emptyEmailOutcome, emails_for]
    next _ =>
      split
      next h => rw [List.isEmpty_iff.mp h]
      next _ =>
        split <;> rfl
  refine ⟨hrec, fun u => subscribers_of_mem db.users article hnd u,
    subscribers_of_id_nodup db.users article hnd, hmsgs, ?_, ?_⟩
  · intro u hu hue
    rw [hmsgs]
    unfold emails_for
    have hsubn : (subscribers_of db.users article).Nodup :=
      List.Nodup.of_map User.id (subscribers_of_id_nodup db.users article hnd)
    have hinj : ∀ x ∈ (subscribers_of db.users article).filter
        (fun u => !(u.email == "")), ∀ y ∈ (subscribers_of db.users article).filter
        (fun u => !(u.email == "")), email_msg_for env db article x =
          email_msg_for env db article y → x = y := by
      intro x hx y hy hxy
      rw [List.mem_filter] at hx hy
      have hxe : x.email = y.email := by
        have := congrArg EmailMsg.recipient_list hxy
        simpa [email_msg_for] using this
      have hxu : x ∈ db.users.filter (fun u => !(u.email == "")) :=
        List.mem_filter.mpr
          ⟨((subscribers_of_mem db.users article hnd x).mp hx.1).1, hx.2⟩
      have hyu : y ∈ db.users.filter (fun u => !(u.email == "")) :=
        List.mem_filter.mpr
          ⟨((subscribers_of_mem db.users article hnd y).mp hy.1).1, hy.2⟩
      exact List.inj_on_of_nodup_map hem hxu hyu hxe
    have hmnd : ((subscribers_of db.users article).filter
        (fun u => !(u.email == ""))).map (email_msg_for env db article) |>.Nodup :=
      List.Nodup.map_on hinj (hsubn.filter _)
    refine List.count_eq_one_of_mem hmnd ?_
    rw [List.mem_map]
    refine ⟨u, List.mem_filter.mpr ⟨hu, ?_⟩, rfl⟩
    simp [hue]
  · intro h
    constructor
    · unfold send_article_to_subscribers
      rw [h]
      rfl
    · rw [hmsgs, h]
      rfl

/-- C3 (counterexample to the claim as stated): for article `art2` the
resolved recipient set has two readers (`reader1`, `reader_no_email`),
but only one email message is generated — `reader_no_email`, having no
stored email address, gets none, so the fan-out does not generate exactly
one message per recipient. -/
theorem c3_blank_email_counterexample :
    reader_no_email ∈ (send_article_to_subscribers env0 db0 art2).recipients ∧
    (send_article_to_subscribers env0 db0 art2).recipients.length = 2 ∧
    (send_article_to_subscribers env0 db0 art2).messages.length = 1 ∧
    ∀ m ∈ (send_article_to_subscribers env0 db0 art2).messages,
      m.recipient_list ≠ [reader_no_email.email] := by
  decide

theorem c3_witness :
    (db0.users.map User.id).Nodup ∧
    ((db0.users.filter (fun u => !(u.email == ""))).map User.email).Nodup ∧
    ((send_article_to_subscribers env0 db0 art2).recipients =
       subscribers_of db0.users art2 ∧
     (∀ u : User, u ∈ subscribers_of db0.users art2 ↔
        u ∈ db0.users ∧ u.role = "reader" ∧
          ((∃ p, art2.publisher = some p ∧ p ∈ u.subscribed_publishers) ∨
           art2.author ∈ u.subscribed_journalists)) ∧
     ((subscribers_of db0.users art2).map User.id).Nodup ∧
     (send_article_to_subscribers env0 db0 art2).messages =
       emails_for env0 db0 art2 (subscribers_of db0.users art2) ∧
     (∀ u ∈ subscribers_of db0.users art2, ¬(u.email = "") →
        (send_article_to_subscribers env0 db0 art2).messages.count
          (email_msg_for env0 db0 art2 u) = 1) ∧
     (subscribers_of db0.users art2 = [] →
        (send_article_to_subscribers env0 db0 art2).attempted = false ∧
        (send_article_to_subscribers env0 db0 art2).messages = [])) :=
  ⟨by decide, by decide, c3_fanout_recipients env0 db0 art2 (by decide) (by decide)⟩

def envBad : Env :=
  { email_send_fails := true, twitter_bearer_token := "token", twitter_response := none,
    allowed_host := "example.com", default_from_email := "news@example.com", now := 9 }

/-- The incoming instance that re-saves the persisted unapproved `art3` as
approved (the approval edge). -/
def art3_approved : Article :=
  { art3 with is_approved := true }

/-- Helper: when the batch send raises, the `except` arm records the
failure in the log instead of propagating it. -/
theorem send_error_logged (env : Env) (db : DB) (a : Article)
    (hfail : env.email_send_fails = true) :
    (send_article_to_subscribers env db a).messages ≠ [] →
    (send_article_to_subscribers env db a).error_logged = true := by
  unfold send_article_to_subscribers
  dsimp only
  split
  next => simp [emptyEmailOutcome]
  next =>
    split
    next => simp
    next => simp [send_mass_mail, hfail]

/-- Helper: with a configured bearer token, the social POST is always
attempted, whatever the transport outcome. -/
theorem tweet_attempted_of_token (env : Env) (a : Article)
    (htok : ¬env.twitter_bearer_token = "") :
    (post_article_to_twitter env a).attempted = true := by
  unfold post_article_to_twitter
  have h : (env.twitter_bearer_token == "") = false := by simp [htok]
  simp only [h, Bool.false_eq_true, if_false]
  split
  next => split <;> rfl
  next => rfl

/-- Helper: a network failure or a non-201 status is logged after the
attempt and never marked as success. -/
theorem tweet_error_logged_of_bad (env : Env) (a : Article) (s : Nat)
    (hresp : env.twitter_response = none ∨ (env.twitter_response = some s ∧ s ≠ 201)) :
    (post_article_to_twitter env a).attempted = true →
    (post_article_to_twitter env a).error_logged = true ∧
    (post_article_to_twitter env a).succeeded = false := by
  unfold post_article_to_twitter
  cases htok : env.twitter_bearer_token == ""
  · simp only [htok, Bool.false_eq_true, if_false]
    intro _
    rcases hresp with h | ⟨h, hs⟩
    · simp [requests_post, h]
    · simp [requests_post, h, hs]
  · intro hatt
    simp [htok, emptyTweetOutcome] at hatt

/-- C4: notification-channel failures are contained at the fan-out
boundary: the persisted store is unaffected by either channel's settings
or failures (the approval is never rolled back and nothing propagates);
the social channel's outcome is independent of an email failure and the
email channel's outcome is independent of the social settings; a raising
email batch is caught and logged, and a social transport error or
non-201 response is caught and logged after the attempt. -/
theorem c4_channel_isolation :
    (∀ (env : Env) (db : DB) (a : Article) (b : Bool) (resp : Option Nat) (tok : String),
       (article_save { env with email_send_fails := b, twitter_response := resp, twitter_bearer_token := tok } db a).1 =
         (article_save env db a).1) ∧
    (∀ (env : Env) (db : DB) (a : Article) (b : Bool),
       (article_save { env with email_send_fails := b } db a).2.tweet =
         (article_save env db a).2.tweet) ∧
    (∀ (env : Env) (db : DB) (a : Article) (resp : Option Nat) (tok : String),
       (article_save { env with twitter_response := resp, twitter_bearer_token := tok } db a).2.emails =
         (article_save env db a).2.emails) ∧
    (∀ (env : Env) (db : DB) (a : Article),
       env.email_send_fails = true →
       (article_save env db a).2.emails.messages ≠ [] →
       (article_save env db a).2.emails.error_logged = true) ∧
    (∀ (env : Env) (db : DB) (a : Article),
       (article_save env db a).2.fired = true →
       ¬(env.twitter_bearer_token = "") →
       (article_save env db a).2.tweet.attempted = true) ∧
    (∀ (env : Env) (db : DB) (a : Article) (s : Nat),
       (env.twitter_response = none ∨ (env.twitter_response = some s ∧ s ≠ 201)) →
       (article_save env db a).2.tweet.attempted = true →
       (article_save env db a).2.tweet.error_logged = true ∧
       (article_save env db a).2.tweet.succeeded = false) := by
  refine ⟨?_, ?_, ?_, ?_, ?_, ?_⟩
  · intro env db a b resp tok
    unfold article_save
    cases htr : track_approval_status db.articles a <;>
      simp [article_approved_actions]
  · intro env db a b
    unfold article_save
    cases htr : track_approval_status db.articles a <;>
      simp [article_approved_actions] <;>
      rfl
  · intro env db a resp tok
    unfold article_save
    cases htr : track_approval_status db.articles a <;>
      simp [article_approved_actions] <;>
      rfl
  · intro env db a hfail
    unfold article_save
    cases htr : track_approval_status db.articles a
    · simp [article_approved_actions, emptyFanout, emptyEmailOutcome]
    · simp only [article_approved_actions, if_true]
      exact send_error_logged env _ _ hfail
  · intro env db a hfired htok
    unfold article_save at hfired ⊢
    cases htr : track_approval_status db.articles a
    · rw [htr] at hfired
      simp [article_approved_actions, emptyFanout, emptyTweetOutcome] at hfired
    · simp only [article_approved_actions, if_true]
      exact tweet_attempted_of_token env _ htok
  · intro env db a s hresp hatt
    unfold article_save at hatt ⊢
    cases htr : track_approval_status db.articles a
    · rw [htr] at hatt
      simp [article_approved_actions, emptyFanout, emptyTweetOutcome] at hatt
    · rw [htr] at hatt
      simp only [article_approved_actions, if_true] at hatt ⊢
      exact tweet_error_logged_of_bad env _ s hresp hatt

theorem c4_witness :
    ((article_save { env0 with email_send_fails := true, twitter_response := none, twitter_bearer_token := "t" } db0 art3_approved).1 =
       (article_save env0 db0 art3_approved).1) ∧
    ((article_save { envBad with email_send_fails := false } db0 art3_approved).2.tweet =
       (article_save envBad db0 art3_approved).2.tweet) ∧
    ((article_save { env0 with twitter_response := none, twitter_bearer_token := "t" } db0 art3_approved).2.emails =
       (article_save env0 db0 art3_approved).2.emails) ∧
    ((article_save envBad db0 art3_approved).2.emails.error_logged = true) ∧
    ((article_save envBad db0 art3_approved).2.tweet.attempted = true) ∧
    ((article_save envBad db0 art3_approved).2.tweet.error_logged = true ∧
     (article_save envBad db0 art3_approved).2.tweet.succeeded = false) :=
  ⟨c4_channel_isolation.1 env0 db0 art3_approved true none "t",
   c4_channel_isolation.2.1 envBad db0 art3_approved false,
   c4_channel_isolation.2.2.1 env0 db0 art3_approved none "t",
   c4_channel_isolation.2.2.2.1 envBad db0 art3_approved rfl (by decide),
   c4_channel_isolation.2.2.2.2.1 envBad db0 art3_approved (by decide) (by decide),
   c4_channel_isolation.2.2.2.2.2 envBad db0 art3_approved 0 (Or.inl rfl) (by decide)⟩
